import Mathlib

/-
Verification of the CareerPath backend (src/main.py, src/schemas.py).

The backend is a FastAPI application over a MongoDB-style document store.
We embed it shallowly:

  * documents are association lists of string keys to values (`Doc`), with
    Python-dict semantics (unique keys, insertion order, `pop`, assignment);
  * the store filters actually built by the code form a small query language
    (`Leaf`/`Clause`/`Query`): a query dict is a conjunction of clauses, a
    clause is a single key condition or a `$or` of leaf conditions, and the
    leaves are `$regex` with the "i" option (modelled as case-insensitive
    substring match of the pattern, the reading used for the plain-text
    queries this application sends), exact equality, and `$in`;
  * the process-wide connection `db` imported from `database` is modelled as
    an optional in-memory state (`Option DBState`), one list of documents per
    collection, plus a counter from which store-assigned ObjectId-style
    identifiers are generated;
  * handlers are pure functions from the optional state (plus request data)
    to a response and an updated state; an uncaught Python exception is the
    `HErr.exn` outcome and an explicit `HTTPException` is `HErr.http`.
-/

/-- A quiz option dict: key, bilingual label, icon (schemas.py TestQuestion.options). -/
structure QOpt where
  key : String
  label_en : String
  label_te : String
  icon : String
deriving DecidableEq, Repr

/-- Values stored in documents: strings, integers, arrays of strings, and
arrays of quiz-option dicts (the only array shapes this program stores). -/
inductive Val where
  | s (x : String)
  | n (x : Int)
  | strs (xs : List String)
  | opts (xs : List QOpt)
deriving DecidableEq, Repr

/-- A document: a Python dict with string keys, as an association list in
insertion order with unique keys. -/
abbrev Doc := List (String × Val)

/-- Dict lookup, `doc[k]` / `doc.get(k)` as an option. -/
def dget : Doc → String → Option Val
  | [], _ => none
  | (k2, v2) :: rest, k => if k2 = k then some v2 else dget rest k

/-- Dict assignment `doc[k] = v`: replace in place if the key exists, else
append at the end (Python dicts preserve insertion order). -/
def dset : Doc → String → Val → Doc
  | [], k, v => [(k, v)]
  | (k2, v2) :: rest, k, v => if k2 = k then (k, v) :: rest else (k2, v2) :: dset rest k v

/-- Remove the first binding of a key. -/
def dremove : Doc → String → Doc
  | [], _ => []
  | (k2, v2) :: rest, k => if k2 = k then rest else (k2, v2) :: dremove rest k

/-- Python `doc.pop(k)` without default: `none` models the `KeyError`. -/
def dpop (d : Doc) (k : String) : Option (Val × Doc) :=
  match dget d k with
  | none => none
  | some v => some (v, dremove d k)

/-- Python `doc.pop(k, None)`: drop the key if present, never an error. -/
def dpopD (d : Doc) (k : String) : Doc :=
  match dget d k with
  | none => d
  | some _ => dremove d k

/-- Keys are pairwise distinct (every dict coming from Python satisfies this). -/
def nodupKeys : Doc → Bool
  | [] => true
  | (k, _) :: rest => (!rest.any (fun p => decide (p.1 = k))) && nodupKeys rest

/-- Python `str` of a stored value, as used on identifiers: store identifiers
are modelled as their hex strings, so `str` is the identity there. -/
def valToStr : Val → String
  | Val.s x => x
  | Val.n x => toString x
  | Val.strs _ => "[list]"
  | Val.opts _ => "[list]"

/-- Python `str(d.get(k))`: a missing key renders as the string None. -/
def pyStrGet (d : Doc) (k : String) : String :=
  match dget d k with
  | some v => valToStr v
  | none => "None"

/-- main.py `to_str_id`: `doc["id"] = str(doc.pop("_id"))`. The `pop` has no
default, so a document without an internal `_id` makes it raise `KeyError`,
modelled as `none`. -/
def to_str_id (doc : Doc) : Option Doc :=
  match dpop doc "_id" with
  | none => none
  | some (v, rest) => some (dset rest "id" (Val.s (valToStr v)))

/-- The document carries a non-empty string internal identifier. -/
def hasGoodId (d : Doc) : Bool :=
  match dget d "_id" with
  | some (Val.s x) => !decide (x = "")
  | _ => false

/-- Well-formedness of a stored document: unique keys and a store-assigned
non-empty string identifier. -/
def docWF (d : Doc) : Bool := nodupKeys d && hasGoodId d

/-- Well-formedness of a collection. -/
def collWF (coll : List Doc) : Bool := coll.all docWF

/-- The returned record carries a non-empty string `id` and no internal `_id`. -/
def goodRecB (d : Doc) : Bool :=
  (match dget d "id" with
   | some (Val.s x) => !decide (x = "")
   | _ => false) &&
  (match dget d "_id" with
   | none => true
   | some _ => false)

/-- Case-insensitive substring matching: does the pattern occur at the head? -/
def charsStartWith : List Char → List Char → Bool
  | [], _ => true
  | _ :: _, [] => false
  | a :: as, b :: bs => a == b && charsStartWith as bs

/-- Does the pattern occur anywhere in the text? -/
def charsContain (pat : List Char) : List Char → Bool
  | [] => pat.isEmpty
  | c :: cs => charsStartWith pat (c :: cs) || charsContain pat cs

/-- Lowercase a string character by character (the inputs this application
compares are plain text). -/
def strLower (s : String) : String := String.mk (s.toList.map Char.toLower)

/-- Case-insensitive substring test: the semantics of the `$regex`/`"i"`
filters this application builds from plain-text query parameters. -/
def containsCI (hay pat : String) : Bool :=
  charsContain (strLower pat).toList (strLower hay).toList

/-- Hexadecimal digit (either case), as accepted by `bson.ObjectId`. -/
def hexDigit (c : Char) : Bool :=
  c.isDigit || ('a' ≤ c && c ≤ 'f') || ('A' ≤ c && c ≤ 'F')

/-- A string parses as an ObjectId iff it is 24 hex characters. -/
def isValidOid (sid : String) : Bool :=
  decide (sid.length = 24) && sid.toList.all hexDigit

/-- `ObjectId(sid)`: normalizes to lowercase; `none` models the raised
`bson.errors.InvalidId`. -/
def parseOid (sid : String) : Option String :=
  if isValidOid sid then some (strLower sid) else none

/-- Lowercase hex digit of a nibble. -/
def hexDigitChar (n : Nat) : Char :=
  if n < 10 then Char.ofNat (48 + n) else Char.ofNat (87 + n)

/-- Fixed-width hex rendering (most significant first). -/
def genOidAux : Nat → Nat → List Char
  | 0, _ => []
  | fuel + 1, n => genOidAux fuel (n / 16) ++ [hexDigitChar (n % 16)]

/-- Store-assigned identifier for the n-th inserted document: a 24-character
lowercase hex string, the shape `str(ObjectId())` yields. -/
def genOid (n : Nat) : String := String.mk (genOidAux 24 n)

/-- Leaf filter conditions built by the handlers. -/
inductive Leaf where
  | regexI (key pat : String)
  | eqv (key : String) (v : Val)
  | inl (key : String) (vs : List Val)
deriving DecidableEq, Repr

/-- A clause of a query dict: one key condition, or a top-level `$or` list. -/
inductive Clause where
  | leaf (l : Leaf)
  | orc (ls : List Leaf)
deriving DecidableEq, Repr

/-- A Mongo query dict as this application builds them: the conjunction of
its clauses. The unrestricted filter is the empty list. -/
abbrev Query := List Clause

/-- Mongo equality: the stored value equals the operand, or the stored value
is an array containing the operand. -/
def matchesEq (stored v : Val) : Bool :=
  decide (stored = v) ||
    (match stored, v with
     | Val.strs xs, Val.s x => decide (x ∈ xs)
     | _, _ => false)

/-- Mongo `$in`: the stored value is in the operand list, or the stored value
is an array with an element in the operand list. -/
def matchesIn (stored : Val) (vs : List Val) : Bool :=
  decide (stored ∈ vs) ||
    (match stored with
     | Val.strs xs => xs.any (fun x => decide (Val.s x ∈ vs))
     | _ => false)

/-- Evaluate a leaf condition against a document. -/
def evalLeaf (d : Doc) : Leaf → Bool
  | Leaf.regexI k p =>
    match dget d k with
    | some (Val.s x) => containsCI x p
    | _ => false
  | Leaf.eqv k v =>
    match dget d k with
    | some w => matchesEq w v
    | none => false
  | Leaf.inl k vs =>
    match dget d k with
    | some w => matchesIn w vs
    | none => false

/-- Evaluate a clause against a document. -/
def evalClause (d : Doc) : Clause → Bool
  | Clause.leaf l => evalLeaf d l
  | Clause.orc ls => ls.any (evalLeaf d)

/-- Evaluate a query dict: conjunction of its clauses. -/
def evalQuery (d : Doc) (qs : Query) : Bool := qs.all (evalClause d)

/-- Modelled from the spec: the store adapter of `database.py` is not under
src/ (main.py only imports `db`, `create_document`, `get_documents` from it);
per spec sections 2 and 5 it exposes named collections supporting filtered
find with optional sort and limit, single-document lookup, insert-one,
insert-many, delete-one-by-filter and count, and is either absent (the
degraded "store not configured" condition, `db is None`) or connected. We
model one list of documents per collection that main.py touches, plus the
counter from which store-assigned identifiers are drawn. -/
structure DBState where
  career : List Doc
  savedcareer : List Doc
  testquestion : List Doc
  testresult : List Doc
  counselor : List Doc
  nextId : Nat
deriving DecidableEq, Repr

/-- The state with all collections empty. -/
def emptyDB : DBState :=
  { career := [], savedcareer := [], testquestion := [], testresult := [],
    counselor := [], nextId := 0 }

/-- Collection `find(query)`: the documents matching the filter, in insertion
order. -/
def findAll (coll : List Doc) (qs : Query) : List Doc :=
  coll.filter (fun d => evalQuery d qs)

/-- Collection `find_one(query)`: the first matching document. -/
def findOne (coll : List Doc) (qs : Query) : Option Doc :=
  (findAll coll qs).head?

/-- Collection `delete_one(query)`: remove the first matching document. -/
def deleteOne (coll : List Doc) (qs : Query) : List Doc :=
  match coll with
  | [] => []
  | d :: ds => if evalQuery d qs then ds else d :: deleteOne ds qs

/-- Insert-many: each document receives the next store-assigned identifier. -/
def withIds (base : Nat) (docs : List Doc) : List Doc :=
  docs.enum.map (fun p => dset p.2 "_id" (Val.s (genOid (base + p.1))))

/-- Modelled from the spec: `create_document` of `database.py` is not under
src/; per spec section 4.4 it inserts one record and returns the new
store-assigned identifier as a string. -/
def createDoc (nextId : Nat) (doc : Doc) : String × Doc :=
  (genOid nextId, dset doc "_id" (Val.s (genOid nextId)))

/-- Handler outcomes that are not a normal response: an explicit
`HTTPException`, or an uncaught Python exception (which the framework turns
into a 500 response). -/
inductive HErr where
  | http (code : Nat) (detail : String)
  | exn (name : String)
deriving DecidableEq, Repr

/-- The list a successful endpoint returned, or nothing. -/
def exceptList : Except HErr (List Doc) → List Doc
  | Except.ok l => l
  | Except.error _ => []

/-- Field types checked by the pydantic response models. -/
inductive FTy where
  | str
  | int
  | optlist
deriving DecidableEq, Repr

/-- Validate one field of a response model. -/
def projField (d : Doc) (k : String) : FTy → Option Val
  | FTy.str =>
    match dget d k with
    | some (Val.s x) => some (Val.s x)
    | _ => none
  | FTy.int =>
    match dget d k with
    | some (Val.n x) => some (Val.n x)
    | _ => none
  | FTy.optlist =>
    match dget d k with
    | some (Val.opts xs) => some (Val.opts xs)
    | _ => none

/-- Validate a document against a response model: keep exactly the model's
fields, fail (pydantic ValidationError) when one is missing or ill-typed. -/
def projDoc (d : Doc) : List (String × FTy) → Option Doc
  | [] => some []
  | (k, t) :: rest =>
    match projField d k t with
    | none => none
    | some v =>
      match projDoc d rest with
      | none => none
      | some r => some ((k, v) :: r)

/-- Fields of the `CareerCard` response model in main.py. -/
def careerCardFields : List (String × FTy) :=
  [("id", FTy.str), ("icon", FTy.str), ("name_en", FTy.str), ("name_te", FTy.str),
   ("short_desc_en", FTy.str), ("short_desc_te", FTy.str), ("salary_min", FTy.int),
   ("salary_max", FTy.int), ("education", FTy.str), ("job_type", FTy.str),
   ("field", FTy.str)]

/-- Serialize one catalog record through `CareerCard`. -/
def careerCardOfDoc (d : Doc) : Option Doc := projDoc d careerCardFields

/-- Fields of the `Counselor` response model (schemas.py). -/
def counselorFields : List (String × FTy) :=
  [("name", FTy.str), ("phone", FTy.str), ("district", FTy.str)]

/-- Serialize one record through `Counselor`. -/
def counselorOfDoc (d : Doc) : Option Doc := projDoc d counselorFields

/-- Fields of the `TestQuestion` response model (schemas.py). -/
def questionFields : List (String × FTy) :=
  [("step", FTy.int), ("question_en", FTy.str), ("question_te", FTy.str),
   ("options", FTy.optlist)]

/-- Serialize one record through `TestQuestion`. -/
def questionOfDoc (d : Doc) : Option Doc := projDoc d questionFields

/-- Transform every document, failing as soon as one transformation fails
(the first raised exception aborts the whole response). -/
def projAll (f : Doc → Option Doc) : List Doc → Option (List Doc)
  | [] => some []
  | d :: ds =>
    match f d with
    | none => none
    | some c =>
      match projAll f ds with
      | none => none
      | some cs => some (c :: cs)

/-- Build a `Career.model_dump()` document (schemas.py field order). -/
def careerDoc (icon ne nt de dt : String) (smin smax : Int)
    (edu jt fld : String) (skills tags gpe gpt : List String) : Doc :=
  [("icon", Val.s icon), ("name_en", Val.s ne), ("name_te", Val.s nt),
   ("short_desc_en", Val.s de), ("short_desc_te", Val.s dt),
   ("salary_min", Val.n smin), ("salary_max", Val.n smax),
   ("education", Val.s edu), ("job_type", Val.s jt), ("field", Val.s fld),
   ("skills", Val.strs skills), ("tags", Val.strs tags),
   ("growth_path_en", Val.strs gpe), ("growth_path_te", Val.strs gpt)]

/-- The three seed careers of `seed_data` in main.py. -/
def sampleCareers : List Doc :=
  [careerDoc "Stethoscope" "Nurse" "నర్స్"
     "Care for patients in hospitals and clinics." "ఆస్పత్రుల్లో రోగుల సంరక్షణ."
     15000 40000 "Diploma/B.Sc Nursing" "Government" "Healthcare"
     ["Compassion", "Communication", "Basic Medical"] ["helping", "people"]
     ["Nursing Student", "Staff Nurse", "Head Nurse"]
     ["విద్యార్థి నర్స్", "స్టాఫ్ నర్స్", "హెడ్ నర్స్"],
   careerDoc "Wrench" "Electrician" "ఎలక్ట్రిషియన్"
     "Install and repair electrical systems." "విద్యుత్ వ్యవస్థల ఏర్పాటు మరియు మరమ్మత్తులు."
     12000 35000 "ITI Electrician / Apprenticeship" "Private" "Trades"
     ["Problem Solving", "Safety", "Tools"] ["fixing", "hands-on"]
     ["Apprentice", "Technician", "Contractor"]
     ["శిక్షణార్థి", "టెక్నీషియన్", "కాంట్రాక్టర్"],
   careerDoc "PenTool" "Teacher" "ఉపాధ్యాయుడు"
     "Teach students and guide learning." "విద్యార్థులకు బోధించడం మరియు మార్గనిర్దేశం."
     18000 50000 "B.Ed / D.Ed" "Government" "Education"
     ["Communication", "Patience"] ["teaching", "helping"]
     ["Assistant Teacher", "Teacher", "Headmaster"]
     ["సహాయ ఉపాధ్యాయుడు", "ఉపాధ్యాయుడు", "హెడ్‌మాస్టర్"]]

/-- Build a `TestQuestion.model_dump()` document. -/
def questionDoc (step : Int) (qe qt : String) (os : List QOpt) : Doc :=
  [("step", Val.n step), ("question_en", Val.s qe), ("question_te", Val.s qt),
   ("options", Val.opts os)]

/-- Options of the first quiz question (also the degraded-mode fallback). -/
def stepOneOptions : List QOpt :=
  [⟨"fix", "Fixing things", "వస్తువులు సరిచేయడం", "Wrench"⟩,
   ⟨"help", "Helping people", "జనాలకు సహాయం చేయడం", "Heart"⟩,
   ⟨"teach", "Teaching others", "ఇతరులకు బోధించడం", "BookOpen"⟩,
   ⟨"create", "Drawing/creative", "డ్రాయింగ్/సృజనాత్మక", "PenTool"⟩]

/-- The single hardcoded question `get_questions` returns when the store is
absent. -/
def fallbackQuestion : Doc :=
  questionDoc 1 "Which activity do you enjoy most?" "మీకు ఎక్కువగా ఇష్టమయ్యే చర్య ఏది?"
    stepOneOptions

/-- The five seed quiz questions of `get_questions` in main.py. -/
def questionSeeds : List Doc :=
  [questionDoc 1 "Which activity do you enjoy most?" "మీకు ఎక్కువగా ఇష్టమయ్యే చర్య ఏది?"
     stepOneOptions,
   questionDoc 2 "Where do you prefer to work?" "మీకు ఏ పనిస్థలం ఇష్టం?"
     [⟨"out", "Outdoors", "బయట", "Trees"⟩,
      ⟨"in", "Indoors", "లోపల", "Home"⟩,
      ⟨"both", "Both", "రెండూ", "Sun"⟩],
   questionDoc 3 "What matters more?" "మీకు ఎక్కువ ముఖ్యమైనది?"
     [⟨"pay", "High salary", "ఎక్కువ జీతం", "IndianRupee"⟩,
      ⟨"secure", "Job security", "ఉద్యోగ భద్రత", "Shield"⟩,
      ⟨"impact", "Helping society", "సమాజానికి సహాయం", "HandHeart"⟩],
   questionDoc 4 "Your strength?" "మీ బలం?"
     [⟨"hands", "Hands-on work", "చేతులతో పని", "Hammer"⟩,
      ⟨"people", "People skills", "మనుషులతో సామర్థ్యం", "Users"⟩,
      ⟨"logic", "Logic/Math", "తార్కికం/గణితం", "FunctionSquare"⟩,
      ⟨"art", "Art/Design", "కళ/డిజైన్", "Palette"⟩],
   questionDoc 5 "Preferred employer?" "ఇష్టమైన ఉద్యోగం?"
     [⟨"govt", "Government", "ప్రభుత్వ", "Building2"⟩,
      ⟨"private", "Private", "ప్రైవేట్", "Briefcase"⟩,
      ⟨"self", "Self-employed", "స్వయం ఉపాధి", "Store"⟩]]

/-- The two seed counselors of `counselors` in main.py. -/
def counselorSeeds : List Doc :=
  [[("name", Val.s "Anitha R."), ("phone", Val.s "90000 11111"),
    ("district", Val.s "Anantapur")],
   [("name", Val.s "Srinivas K."), ("phone", Val.s "90000 22222"),
    ("district", Val.s "Kurnool")]]

/-- main.py `seed_data` (startup): when the store is present and the career
collection counts zero documents, insert the three sample careers. -/
def seed_data (odb : Option DBState) : Option DBState :=
  match odb with
  | none => none
  | some st =>
    if (findAll st.career []).length = 0 then
      some { st with career := st.career ++ withIds st.nextId sampleCareers,
                     nextId := st.nextId + sampleCareers.length }
    else some st

/-- Number of persisted careers, for stating the seed idempotence property. -/
def careersLen (odb : Option DBState) : Nat :=
  match odb with
  | none => 0
  | some st => st.career.length

/-- One optional catalog parameter contributes one query clause; Python
truthiness makes both an absent and an empty-string parameter contribute
nothing. -/
def optClause (o : Option String) (f : String → Clause) : Query :=
  match o with
  | none => []
  | some s => if s = "" then [] else [f s]

/-- The `$or` clause built from the free-text parameter `q` in
`list_careers`. -/
def qClause (qv : String) : Clause :=
  Clause.orc [Leaf.regexI "name_en" qv, Leaf.regexI "name_te" qv,
              Leaf.regexI "field" qv, Leaf.inl "tags" [Val.s qv]]

/-- The catalog query dict built by `list_careers`: `$or` from `q`, exact
`field`, case-insensitive `education` substring, conjoined. -/
def listCareersQuery (qo fo eo : Option String) : Query :=
  optClause qo qClause ++
  optClause fo (fun fv => Clause.leaf (Leaf.eqv "field" (Val.s fv))) ++
  optClause eo (fun ev => Clause.leaf (Leaf.regexI "education" ev))

/-- The documents `list_careers` fetches: matching careers capped at 60. -/
def catalogFound (st : DBState) (qo fo eo : Option String) : List Doc :=
  (findAll st.career (listCareersQuery qo fo eo)).take 60

/-- main.py `list_careers`: empty list when the store is absent, otherwise
the fetched documents pushed through `to_str_id` and the `CareerCard`
response model. -/
def list_careers (odb : Option DBState) (qo fo eo : Option String) :
    Except HErr (List Doc) :=
  match odb with
  | none => Except.ok []
  | some st =>
    match projAll (fun d => (to_str_id d).bind careerCardOfDoc)
        (catalogFound st qo fo eo) with
    | none => Except.error (HErr.exn "ValidationError")
    | some cards => Except.ok cards

/-- main.py `career_detail`: 500 when the store is absent, InvalidId when the
identifier does not parse, 404 when no career matches, otherwise the raw
document through `to_str_id` (no response model on this endpoint). -/
def career_detail (odb : Option DBState) (career_id : String) :
    Except HErr Doc :=
  match odb with
  | none => Except.error (HErr.http 500 "Database not available")
  | some st =>
    match parseOid career_id with
    | none => Except.error (HErr.exn "InvalidId")
    | some oid =>
      match findOne st.career [Clause.leaf (Leaf.eqv "_id" (Val.s oid))] with
      | none => Except.error (HErr.http 404 "Not found")
      | some doc =>
        match to_str_id doc with
        | none => Except.error (HErr.exn "KeyError")
        | some d => Except.ok d

/-- Request body of POST /api/save (schemas.py SavedCareer). -/
structure SavedCareer where
  user_id : String
  career_id : String
deriving DecidableEq, Repr

/-- The existence filter of `save_career`: same user and career. -/
def pairCond (uid cid : String) : Query :=
  [Clause.leaf (Leaf.eqv "user_id" (Val.s uid)),
   Clause.leaf (Leaf.eqv "career_id" (Val.s cid))]

/-- main.py `save_career`: 500 when the store is absent; an existing
(user_id, career_id) record short-circuits with status exists; otherwise the
record is inserted and its new identifier returned with status ok. -/
def save_career (odb : Option DBState) (item : SavedCareer) :
    Except HErr (Doc × DBState) :=
  match odb with
  | none => Except.error (HErr.http 500 "Database not available")
  | some st =>
    match findOne st.savedcareer (pairCond item.user_id item.career_id) with
    | some _ => Except.ok ([("status", Val.s "exists")], st)
    | none =>
      let pr := createDoc st.nextId
        [("user_id", Val.s item.user_id), ("career_id", Val.s item.career_id)]
      Except.ok ([("status", Val.s "ok"), ("id", Val.s pr.1)],
        { st with savedcareer := st.savedcareer ++ [pr.2],
                  nextId := st.nextId + 1 })

/-- The state after a successful save, for stating idempotence. -/
def saveState (st : DBState) (item : SavedCareer) : DBState :=
  match save_career (some st) item with
  | Except.ok pr => pr.2
  | Except.error _ => st

/-- main.py `list_saved`: empty when the store is absent, otherwise the
user's records with `d["id"] = str(d.pop("_id"))` applied to each (the same
computation as `to_str_id`, raising `KeyError` on a record without `_id`). -/
def list_saved (odb : Option DBState) (uid : String) : Except HErr (List Doc) :=
  match odb with
  | none => Except.ok []
  | some st =>
    match projAll to_str_id
        (findAll st.savedcareer [Clause.leaf (Leaf.eqv "user_id" (Val.s uid))]) with
    | none => Except.error (HErr.exn "KeyError")
    | some docs => Except.ok docs

/-- The deletion filter of `delete_saved`: the record's identifier and the
owning user. -/
def delCond (uid oid : String) : Query :=
  [Clause.leaf (Leaf.eqv "_id" (Val.s oid)),
   Clause.leaf (Leaf.eqv "user_id" (Val.s uid))]

/-- main.py `delete_saved`: 500 when the store is absent, InvalidId when the
identifier does not parse, otherwise `delete_one` on (identifier, user) and
an unconditional status deleted. -/
def delete_saved (odb : Option DBState) (uid sid : String) :
    Except HErr (Doc × DBState) :=
  match odb with
  | none => Except.error (HErr.http 500 "Database not available")
  | some st =>
    match parseOid sid with
    | none => Except.error (HErr.exn "InvalidId")
    | some oid =>
      Except.ok ([("status", Val.s "deleted")],
        { st with savedcareer := deleteOne st.savedcareer (delCond uid oid) })

/-- Step number of a question document, the sort key of `get_questions`. -/
def stepOf (d : Doc) : Int :=
  match dget d "step" with
  | some (Val.n k) => k
  | _ => 0

/-- Insert into a step-sorted list (stable). -/
def insertByStep (d : Doc) : List Doc → List Doc
  | [] => [d]
  | e :: es => if stepOf d ≤ stepOf e then d :: e :: es else e :: insertByStep d es

/-- The store's ascending sort on the step field. -/
def sortByStep (l : List Doc) : List Doc := l.foldr insertByStep []

/-- The question documents `get_questions` works on, and the state after the
bootstrap-on-empty branch. -/
def questionDocs (st : DBState) : List Doc × DBState :=
  let docs := sortByStep (findAll st.testquestion [])
  if docs.isEmpty then
    let st2 := { st with testquestion := st.testquestion ++ withIds st.nextId questionSeeds,
                         nextId := st.nextId + questionSeeds.length }
    (sortByStep (findAll st2.testquestion []), st2)
  else (docs, st)

/-- main.py `get_questions`: exactly the one hardcoded fallback question when
the store is absent; otherwise the stored questions sorted by step, seeded
when empty, each with `_id` dropped (pop with default), through the
`TestQuestion` response model. -/
def get_questions (odb : Option DBState) :
    Except HErr (List Doc) × Option DBState :=
  match odb with
  | none => (Except.ok [fallbackQuestion], none)
  | some st =>
    let pr := questionDocs st
    match projAll questionOfDoc (pr.1.map (fun d => dpopD d "_id")) with
    | none => (Except.error (HErr.exn "ValidationError"), some pr.2)
    | some out => (Except.ok out, some pr.2)

/-- The static answer table of `submit_test` in main.py. -/
def tag_map (a : String) : Option (List String) :=
  if a = "fix" then some ["hands-on", "Trades"]
  else if a = "help" then some ["helping", "Healthcare"]
  else if a = "teach" then some ["teaching", "Education"]
  else if a = "create" then some ["creative", "Design"]
  else if a = "logic" then some ["logic", "Engineering"]
  else if a = "govt" then some ["Government"]
  else if a = "private" then some ["Private"]
  else if a = "self" then some ["Self-employed"]
  else none

/-- The clause one answer contributes in `submit_test`: a single-entry table
value is an exact job_type condition, a two-entry value is tag-containment
OR field equality; an unknown key contributes nothing. -/
def answerClause (a : String) : Option Clause :=
  match tag_map a with
  | none => none
  | some val =>
    if val.length = 1 then
      some (Clause.leaf (Leaf.eqv "job_type" (Val.s (val.headD ""))))
    else
      some (Clause.orc [Leaf.inl "tags" [Val.s (val.headD "")],
                        Leaf.eqv "field" (Val.s (val.getD 1 ""))])

/-- The career filter `submit_test` builds: the conjunction, in answer order,
of the recognized answers' clauses (`{"$and": filters}`, or the unrestricted
`{}` when no answer is recognized — both are the plain conjunction here). -/
def submitQuery (answers : List String) : Query :=
  answers.filterMap answerClause

/-- Request body of POST /api/test/submit (schemas.py TestSubmission). -/
structure TestSubmission where
  user_id : Option String
  answers : List String
deriving DecidableEq, Repr

/-- Response of POST /api/test/submit (schemas.py TestResult). -/
structure TestResultR where
  user_id : Option String
  recommended_ids : List String
deriving DecidableEq, Repr

/-- Python `x or dflt` on an optional string: both None and the empty string
fall back to the default. -/
def pyOr (o : Option String) (dflt : String) : String :=
  match o with
  | none => dflt
  | some s => if s = "" then dflt else s

/-- main.py `submit_test`: build the filter from the answers, fetch up to 6
matching careers (none when the store is absent), persist a testresult
history record whose user_id falls back to guest, and return the original
user_id with the recommended identifiers. -/
def submit_test (odb : Option DBState) (p : TestSubmission) :
    TestResultR × Option DBState :=
  match odb with
  | none => (⟨p.user_id, []⟩, none)
  | some st =>
    let docs := (findAll st.career (submitQuery p.answers)).take 6
    let ids := docs.map (fun d => pyStrGet d "_id")
    let pr := createDoc st.nextId
      [("user_id", Val.s (pyOr p.user_id "guest")),
       ("answers", Val.strs p.answers),
       ("recommended_ids", Val.strs ids)]
    (⟨p.user_id, ids⟩,
     some { st with testresult := st.testresult ++ [pr.2],
                    nextId := st.nextId + 1 })

/-- The user_id stored in the most recently persisted testresult record. -/
def lastTestresultUser (odb : Option DBState) : Option Val :=
  match odb with
  | none => none
  | some st =>
    match st.testresult.getLast? with
    | none => none
    | some hd => dget hd "user_id"

/-- The counselor documents `counselors` works on, and the state after the
bootstrap-on-empty branch. -/
def counselorDocs (st : DBState) : List Doc × DBState :=
  let docs := (findAll st.counselor []).take 100
  if docs.isEmpty then
    let st2 := { st with counselor := st.counselor ++ withIds st.nextId counselorSeeds,
                         nextId := st.nextId + counselorSeeds.length }
    ((findAll st2.counselor []).take 100, st2)
  else (docs, st)

/-- main.py `counselors`: empty when the store is absent; otherwise up to 100
stored counselors, seeded when empty, each with `_id` dropped (pop with
default — note no `id` is added), through the `Counselor` response model. -/
def counselors (odb : Option DBState) :
    Except HErr (List Doc) × Option DBState :=
  match odb with
  | none => (Except.ok [], none)
  | some st =>
    let pr := counselorDocs st
    match projAll counselorOfDoc (pr.1.map (fun d => dpopD d "_id")) with
    | none => (Except.error (HErr.exn "ValidationError"), some pr.2)
    | some out => (Except.ok out, some pr.2)

/-- The state reached by seeding the empty store, used as a concrete test
state throughout. -/
def theSeeded : DBState :=
  { emptyDB with career := withIds 0 sampleCareers, nextId := 3 }

/-- The per-answer predicate as the spec words it (section 4.5): fix, help,
teach, create and logic map to tag-containment OR field equality with the
pairs hands-on/Trades, helping/Healthcare, teaching/Education,
creative/Design and logic/Engineering; govt, private and self map to exact
job_type Government, Private and Self-employed; other keys are dropped. -/
def specAnswerClause (a : String) : Option Clause :=
  if a = "fix" then
    some (Clause.orc [Leaf.inl "tags" [Val.s "hands-on"], Leaf.eqv "field" (Val.s "Trades")])
  else if a = "help" then
    some (Clause.orc [Leaf.inl "tags" [Val.s "helping"], Leaf.eqv "field" (Val.s "Healthcare")])
  else if a = "teach" then
    some (Clause.orc [Leaf.inl "tags" [Val.s "teaching"], Leaf.eqv "field" (Val.s "Education")])
  else if a = "create" then
    some (Clause.orc [Leaf.inl "tags" [Val.s "creative"], Leaf.eqv "field" (Val.s "Design")])
  else if a = "logic" then
    some (Clause.orc [Leaf.inl "tags" [Val.s "logic"], Leaf.eqv "field" (Val.s "Engineering")])
  else if a = "govt" then some (Clause.leaf (Leaf.eqv "job_type" (Val.s "Government")))
  else if a = "private" then some (Clause.leaf (Leaf.eqv "job_type" (Val.s "Private")))
  else if a = "self" then some (Clause.leaf (Leaf.eqv "job_type" (Val.s "Self-employed")))
  else none

/-- The quiz filter as the spec words it: the conjunction, in answer order,
of the per-answer predicates of the recognized answers; unrestricted when
none is recognized. -/
def specSubmitQuery (answers : List String) : Query :=
  answers.filterMap specAnswerClause

/-- A concrete test state: the seeded careers plus one saved record. -/
def savedRecW : Doc :=
  [("user_id", Val.s "u1"), ("career_id", Val.s "000000000000000000000000"),
   ("_id", Val.s (genOid 3))]

/-- A second concrete saved record, owned by another user. -/
def savedRec2 : Doc :=
  [("user_id", Val.s "u2"), ("career_id", Val.s "000000000000000000000001"),
   ("_id", Val.s (genOid 9))]

/-- The test state holding the seeded careers and two saved records. -/
def stateW : DBState :=
  { theSeeded with savedcareer := [savedRecW, savedRec2], nextId := 10 }

/-- The first career card returned by the catalog on the test state. -/
def cardW : Doc := (exceptList (list_careers (some stateW) none none none)).headD []

/-- The detail response for the first seeded career on the test state. -/
def detailW : Doc :=
  (career_detail (some stateW) "000000000000000000000000").toOption.getD []

/-- The first saved record returned for user u1 on the test state. -/
def savedW2 : Doc := (exceptList (list_saved (some stateW) "u1")).headD []

/-- The first counselor record returned on the test state. -/
def counselorW : Doc := (exceptList (counselors (some stateW)).1).headD []

/-- The first catalog record found for a fully supplied parameter triple on
the seeded store. -/
def catalogW : Doc :=
  (catalogFound theSeeded (some "nurse") (some "Healthcare") (some "nursing")).headD []

/-- The savedcareer document `save_career` inserts (the request pair plus the
store-assigned identifier). -/
def savedDocOf (uid cid : String) (n : Nat) : Doc :=
  [("user_id", Val.s uid), ("career_id", Val.s cid), ("_id", Val.s (genOid n))]

/-- The state after `save_career` inserts the pair. -/
def savedInserted (st : DBState) (item : SavedCareer) : DBState :=
  { st with
    savedcareer := st.savedcareer ++ [savedDocOf item.user_id item.career_id st.nextId],
    nextId := st.nextId + 1 }

theorem mem_of_head_eq (l : List Doc) (d : Doc) (h : l.head? = some d) : d ∈ l := by
  cases l with
  | nil => simp at h
  | cons a as =>
    simp only [List.head?] at h
    injection h with h
    exact h ▸ List.mem_cons_self a as

theorem evalQuery_append (d : Doc) (xs ys : Query) :
    evalQuery d (xs ++ ys) = (evalQuery d xs && evalQuery d ys) := by
  simp [evalQuery, List.all_append]

theorem evalClause_of_optClause (d : Doc) (v : String) (f : String → Clause)
    (h : evalQuery d (optClause (some v) f) = true) (hv : ¬ v = "") :
    evalClause d (f v) = true := by
  simp only [optClause, if_neg hv, evalQuery, List.all_cons, List.all_nil,
    Bool.and_true] at h
  exact h

theorem dget_eq_none_of_forall (d : Doc) (k : String)
    (h : ∀ p ∈ d, ¬ p.1 = k) : dget d k = none := by
  induction d with
  | nil => rfl
  | cons p rest ih =>
    obtain ⟨k2, v2⟩ := p
    simp only [dget]
    rw [if_neg (h (k2, v2) (List.mem_cons_self _ _))]
    exact ih (fun q hq => h q (List.mem_cons_of_mem _ hq))

theorem dget_dset_self (d : Doc) (k : String) (v : Val) :
    dget (dset d k v) k = some v := by
  induction d with
  | nil => simp [dset, dget]
  | cons p rest ih =>
    obtain ⟨k2, v2⟩ := p
    by_cases hk : k2 = k
    · simp [dset, dget, hk]
    · simp only [dset, if_neg hk, dget]
      exact ih

theorem dget_dset_ne (d : Doc) (k k2 : String) (v : Val) (h : ¬ k = k2) :
    dget (dset d k v) k2 = dget d k2 := by
  induction d with
  | nil => simp [dset, dget, h]
  | cons p rest ih =>
    obtain ⟨k3, v3⟩ := p
    by_cases hk : k3 = k
    · simp only [dset, if_pos hk, dget, if_neg h]
      rw [if_neg (hk ▸ h)]
    · simp only [dset, if_neg hk, dget]
      by_cases hk2 : k3 = k2
      · rw [if_pos hk2, if_pos hk2]
      · rw [if_neg hk2, if_neg hk2]
        exact ih

theorem dget_dremove_self (d : Doc) (k : String) (h : nodupKeys d = true) :
    dget (dremove d k) k = none := by
  induction d with
  | nil => rfl
  | cons p rest ih =>
    obtain ⟨k2, v2⟩ := p
    simp only [nodupKeys, Bool.and_eq_true, Bool.not_eq_true'] at h
    obtain ⟨hany, hrest⟩ := h
    by_cases hk : k2 = k
    · simp only [dremove, if_pos hk]
      subst hk
      apply dget_eq_none_of_forall
      intro q hq hqk
      have : rest.any (fun p => decide (p.1 = k2)) = true :=
        List.any_eq_true.mpr ⟨q, hq, by simp [hqk]⟩
      rw [this] at hany
      cases hany
    · simp only [dremove, if_neg hk, dget]
      exact ih hrest

theorem to_str_id_shape (d d2 : Doc) (hw : docWF d = true)
    (h : to_str_id d = some d2) :
    ∃ x, dget d2 "id" = some (Val.s x) ∧ decide (x = "") = false ∧
      dget d2 "_id" = none := by
  simp only [docWF, Bool.and_eq_true] at hw
  obtain ⟨hnd, hgood⟩ := hw
  unfold hasGoodId at hgood
  unfold to_str_id dpop at h
  cases hg : dget d "_id" with
  | none => rw [hg] at h hgood; cases hgood
  | some v =>
    rw [hg] at h hgood
    cases v with
    | s x =>
      simp only at h
      injection h with h
      subst h
      refine ⟨x, ?_, by simpa using hgood, ?_⟩
      · simpa [valToStr] using dget_dset_self (dremove d "_id") "id" (Val.s x)
      · rw [dget_dset_ne _ _ _ _ (by decide)]
        exact dget_dremove_self d "_id" hnd
    | n x => cases hgood
    | strs xs => cases hgood
    | opts xs => cases hgood

theorem goodRecB_of_shape (d2 : Doc) (x : String)
    (h1 : dget d2 "id" = some (Val.s x)) (h2 : decide (x = "") = false)
    (h3 : dget d2 "_id" = none) : goodRecB d2 = true := by
  simp [goodRecB, h1, h2, h3]

theorem projAll_mem (f : Doc → Option Doc) (l : List Doc) (cs : List Doc)
    (c : Doc) (h : projAll f l = some cs) (hc : c ∈ cs) :
    ∃ d, d ∈ l ∧ f d = some c := by
  induction l generalizing cs with
  | nil =>
    simp only [projAll] at h
    injection h with h
    subst h
    cases hc
  | cons d ds ih =>
    simp only [projAll] at h
    cases hf : f d with
    | none => rw [hf] at h; cases h
    | some c1 =>
      rw [hf] at h
      cases hrest : projAll f ds with
      | none => rw [hrest] at h; cases h
      | some cs1 =>
        rw [hrest] at h
        injection h with h
        subst h
        rcases List.mem_cons.mp hc with hceq | hcmem
        · exact ⟨d, List.mem_cons_self _ _, hceq ▸ hf⟩
        · obtain ⟨d1, hd1, hfd1⟩ := ih cs1 hrest hcmem
          exact ⟨d1, List.mem_cons_of_mem _ hd1, hfd1⟩

theorem projDoc_head_str (d c : Doc) (k : String) (fs : List (String × FTy))
    (h : projDoc d ((k, FTy.str) :: fs) = some c) :
    ∃ x, dget d k = some (Val.s x) ∧ dget c k = some (Val.s x) := by
  simp only [projDoc, projField] at h
  cases hg : dget d k with
  | none => rw [hg] at h; cases h
  | some v =>
    rw [hg] at h
    cases v with
    | s x =>
      simp only at h
      cases hrest : projDoc d fs with
      | none => rw [hrest] at h; cases h
      | some r =>
        rw [hrest] at h
        injection h with h
        subst h
        exact ⟨x, rfl, by simp [dget]⟩
    | n x => cases h
    | strs xs => cases h
    | opts xs => cases h

theorem projDoc_get_none (d c : Doc) (k : String) (fs : List (String × FTy))
    (hk : ∀ p ∈ fs, ¬ p.1 = k) (h : projDoc d fs = some c) :
    dget c k = none := by
  induction fs generalizing c with
  | nil =>
    simp only [projDoc] at h
    injection h with h
    subst h
    rfl
  | cons p rest ih =>
    obtain ⟨k2, t⟩ := p
    simp only [projDoc] at h
    cases hf : projField d k2 t with
    | none => rw [hf] at h; cases h
    | some v =>
      rw [hf] at h
      cases hrest : projDoc d rest with
      | none => rw [hrest] at h; cases h
      | some r =>
        rw [hrest] at h
        injection h with h
        subst h
        simp only [dget]
        rw [if_neg (hk (k2, t) (List.mem_cons_self _ _))]
        exact ih r (fun q hq => hk q (List.mem_cons_of_mem _ hq)) hrest

theorem deleteOne_of_none (coll : List Doc) (qs : Query)
    (h : ∀ x ∈ coll, evalQuery x qs = false) : deleteOne coll qs = coll := by
  induction coll with
  | nil => rfl
  | cons d ds ih =>
    simp only [deleteOne]
    rw [if_neg (by rw [h d (List.mem_cons_self _ _)]; decide)]
    rw [ih (fun x hx => h x (List.mem_cons_of_mem _ hx))]

theorem mem_deleteOne (coll : List Doc) (qs : Query) (d : Doc)
    (hd : d ∈ coll) (h : evalQuery d qs = false) : d ∈ deleteOne coll qs := by
  induction coll with
  | nil => cases hd
  | cons a as ih =>
    simp only [deleteOne]
    by_cases ha : evalQuery a qs = true
    · rw [if_pos ha]
      rcases List.mem_cons.mp hd with rfl | hmem
      · rw [h] at ha; cases ha
      · exact hmem
    · rw [if_neg ha]
      rcases List.mem_cons.mp hd with rfl | hmem
      · exact List.mem_cons_self _ _
      · exact List.mem_cons_of_mem _ (ih hmem)

theorem length_deleteOne (coll : List Doc) (qs : Query) (x : Doc)
    (hx : x ∈ coll) (h : evalQuery x qs = true) :
    (deleteOne coll qs).length + 1 = coll.length := by
  induction coll with
  | nil => cases hx
  | cons a as ih =>
    simp only [deleteOne]
    by_cases ha : evalQuery a qs = true
    · rw [if_pos ha]; rfl
    · rw [if_neg ha]
      rcases List.mem_cons.mp hx with rfl | hmem
      · exact absurd h ha
      · have := ih hmem
        simp only [List.length_cons]
        omega

theorem getLast_append_single (l : List Doc) (a : Doc) :
    (l ++ [a]).getLast? = some a := by
  exact List.getLast?_concat l

theorem collWF_mem (coll : List Doc) (d : Doc) (h : collWF coll = true)
    (hd : d ∈ coll) : docWF d = true :=
  List.all_eq_true.mp h d hd

theorem answerClause_eq_spec (a : String) : answerClause a = specAnswerClause a := by
  unfold answerClause tag_map specAnswerClause
  split_ifs <;> rfl

theorem submitQuery_eq_spec (answers : List String) :
    submitQuery answers = specSubmitQuery answers := by
  unfold submitQuery specSubmitQuery
  induction answers with
  | nil => rfl
  | cons a as ih =>
    rw [List.filterMap_cons, List.filterMap_cons, answerClause_eq_spec, ih]

/-- C1: for every quiz submission the career filter built by `submit_test`
is the conjunction, in answer order, of one predicate per answer key found
in the static table (fix, help, teach, create and logic give tag-containment
OR field equality with the pairs hands-on/Trades, helping/Healthcare,
teaching/Education, creative/Design, logic/Engineering; govt, private and
self give exact job_type Government, Private, Self-employed); unknown keys
contribute nothing and no recognized answer gives the unrestricted filter.
For answers fix, govt the filter is (tags contains hands-on OR field equals
Trades) AND job_type equals Government, and the filtered result is capped at
6 records. -/
theorem submit_filter_matches_spec (answers : List String) (odb : Option DBState)
    (p : TestSubmission) :
    submitQuery answers = specSubmitQuery answers ∧
    submitQuery ["fix", "govt"] =
      [Clause.orc [Leaf.inl "tags" [Val.s "hands-on"], Leaf.eqv "field" (Val.s "Trades")],
       Clause.leaf (Leaf.eqv "job_type" (Val.s "Government"))] ∧
    (submit_test odb p).1.recommended_ids.length ≤ 6 := by
  refine ⟨submitQuery_eq_spec answers, by decide, ?_⟩
  cases odb with
  | none => simp [submit_test]
  | some st =>
    simp only [submit_test, List.length_map]
    exact List.length_take_le 6 (findAll st.career (submitQuery p.answers))

/-- C4: running the careers bootstrap against a non-empty careers collection
is a no-op, and invoking it twice in sequence on the empty store leaves
exactly the 3 seed records present, not 6. -/
theorem seed_idempotent (st : DBState) (h : ¬ st.career = []) :
    seed_data (some st) = some st ∧
    careersLen (seed_data (seed_data (some emptyDB))) = 3 := by
  constructor
  · unfold seed_data
    have hall : findAll st.career [] = st.career := by
      simp [findAll, evalQuery]
    simp only [hall]
    rw [if_neg (fun hl => h (List.length_eq_zero.mp hl))]
  · rfl

/-- Witness for C4 at a concrete non-empty state. -/
theorem seed_idempotent_witness :
    seed_data (some theSeeded) = some theSeeded ∧
    careersLen (seed_data (seed_data (some emptyDB))) = 3 :=
  seed_idempotent theSeeded (by decide)

/-- C6: with the store absent, the catalog returns the empty list, the quiz
questions endpoint returns exactly the one hardcoded fallback question, and
the career detail endpoint fails with a 500 server error. -/
theorem degraded_mode (qo fo eo : Option String) (cid : String) :
    list_careers none qo fo eo = Except.ok [] ∧
    get_questions none = (Except.ok [fallbackQuestion], none) ∧
    (exceptList (get_questions none).1).length = 1 ∧
    career_detail none cid = Except.error (HErr.http 500 "Database not available") :=
  ⟨rfl, rfl, rfl, rfl⟩

/-- C7 counterexample: applying `to_str_id` to a document without an internal
`_id` is not a no-op — `doc.pop` raises `KeyError` (modelled as `none`). -/
theorem to_str_id_missing_id_errors :
    to_str_id [("name_en", Val.s "Nurse")] = none ∧
    ¬ to_str_id [("name_en", Val.s "Nurse")] = some [("name_en", Val.s "Nurse")] := by
  decide

/-- C7 amended: applying the identifier-translation helper to a document
without the internal `_id` field raises `KeyError` rather than being a
no-op; in particular applying it a second time, after the internal field was
already removed by a first application, always errors. -/
theorem to_str_id_missing_id_raises (d d2 : Doc) (hnd : nodupKeys d = true) :
    (dget d "_id" = none → to_str_id d = none) ∧
    (to_str_id d = some d2 → to_str_id d2 = none) := by
  constructor
  · intro h
    unfold to_str_id dpop
    rw [h]
  · intro h
    unfold to_str_id dpop at h
    cases hg : dget d "_id" with
    | none => rw [hg] at h; cases h
    | some v =>
      rw [hg] at h
      simp only at h
      injection h with h
      subst h
      unfold to_str_id dpop
      rw [dget_dset_ne _ _ _ _ (by decide), dget_dremove_self d "_id" hnd]

/-- Witness for C7 amended at a concrete document. -/
theorem to_str_id_missing_id_raises_witness :
    (dget [("_id", Val.s "x"), ("k", Val.n 1)] "_id" = none →
       to_str_id [("_id", Val.s "x"), ("k", Val.n 1)] = none) ∧
    (to_str_id [("_id", Val.s "x"), ("k", Val.n 1)] =
        some [("k", Val.n 1), ("id", Val.s "x")] →
       to_str_id [("k", Val.n 1), ("id", Val.s "x")] = none) :=
  to_str_id_missing_id_raises [("_id", Val.s "x"), ("k", Val.n 1)]
    [("k", Val.n 1), ("id", Val.s "x")] (by decide)

/-- C8: a malformed identifier does not surface as a client-facing error —
both parsing endpoints let `bson.errors.InvalidId` escape as an uncaught
exception (a 500 server response), which contradicts the spec's requirement
of a client-facing error. -/
theorem malformed_id_unhandled :
    career_detail (some emptyDB) "not-an-objectid" = Except.error (HErr.exn "InvalidId") ∧
    delete_saved (some emptyDB) "u9" "not-an-objectid" = Except.error (HErr.exn "InvalidId") ∧
    ∀ code detail, ¬ HErr.exn "InvalidId" = HErr.http code detail := by
  refine ⟨rfl, rfl, ?_⟩
  intro code detail h
  cases h

/-- C10: a quiz submission with an empty-string user_id is persisted with
user_id guest, exactly as an absent user_id would be, while the returned
result still carries the original empty string. -/
theorem submit_empty_user_id (st : DBState) (answers : List String) :
    (submit_test (some st) ⟨some "", answers⟩).1.user_id = some "" ∧
    (submit_test (some st) ⟨some "", answers⟩).2 =
      (submit_test (some st) ⟨none, answers⟩).2 ∧
    lastTestresultUser (submit_test (some st) ⟨some "", answers⟩).2 =
      some (Val.s "guest") := by
  refine ⟨rfl, rfl, ?_⟩
  simp only [submit_test, lastTestresultUser]
  rw [getLast_append_single]
  rfl

/-- C3: starting from a state without a record for the pair, saving inserts
and returns status ok with the new identifier, leaves exactly one persisted
savedcareer record for the pair, and a second identical save returns status
exists without inserting. -/
theorem save_idempotent (st : DBState) (item : SavedCareer)
    (h : findAll st.savedcareer (pairCond item.user_id item.career_id) = []) :
    save_career (some st) item =
      Except.ok ([("status", Val.s "ok"), ("id", Val.s (genOid st.nextId))],
        saveState st item) ∧
    (findAll (saveState st item).savedcareer
      (pairCond item.user_id item.career_id)).length = 1 ∧
    save_career (some (saveState st item)) item =
      Except.ok ([("status", Val.s "exists")], saveState st item) := by
  have hone : save_career (some st) item =
      Except.ok ([("status", Val.s "ok"), ("id", Val.s (genOid st.nextId))],
        savedInserted st item) := by
    unfold save_career findOne
    simp only [h]
    rfl
  have hstate : saveState st item = savedInserted st item := by
    unfold saveState
    rw [hone]
  have hmatch : evalQuery (savedDocOf item.user_id item.career_id st.nextId)
      (pairCond item.user_id item.career_id) = true := by
    simp [evalQuery, evalClause, evalLeaf, dget, matchesEq, pairCond, savedDocOf]
  have hfind : findAll (saveState st item).savedcareer
      (pairCond item.user_id item.career_id) =
      [savedDocOf item.user_id item.career_id st.nextId] := by
    rw [hstate]
    unfold findAll at h ⊢
    unfold savedInserted
    simp only [List.filter_append, h, List.nil_append]
    simp [hmatch]
  refine ⟨hstate ▸ hone, by rw [hfind]; rfl, ?_⟩
  unfold save_career findOne
  simp only [hfind]
  rfl

/-- Witness for C3 at the empty store. -/
theorem save_idempotent_witness :
    save_career (some emptyDB) ⟨"u1", "c1"⟩ =
      Except.ok ([("status", Val.s "ok"), ("id", Val.s (genOid 0))],
        saveState emptyDB ⟨"u1", "c1"⟩) ∧
    (findAll (saveState emptyDB ⟨"u1", "c1"⟩).savedcareer
      (pairCond "u1" "c1")).length = 1 ∧
    save_career (some (saveState emptyDB ⟨"u1", "c1"⟩)) ⟨"u1", "c1"⟩ =
      Except.ok ([("status", Val.s "exists")], saveState emptyDB ⟨"u1", "c1"⟩) :=
  save_idempotent emptyDB ⟨"u1", "c1"⟩ rfl

/-- C5: with a parseable identifier, the delete-saved operation always
answers status deleted and removes at most the first record matching both
the identifier and the owning user: when nothing matches the store is
unchanged, a record with a different owner always stays, any non-matching
record stays, and when something matches exactly one record disappears. -/
theorem delete_isolation (st : DBState) (uid u2 sid : String) (d : Doc)
    (hv : isValidOid sid = true) :
    delete_saved (some st) uid sid =
      Except.ok ([("status", Val.s "deleted")],
        { st with savedcareer := deleteOne st.savedcareer (delCond uid (strLower sid)) }) ∧
    (findAll st.savedcareer (delCond uid (strLower sid)) = [] →
      deleteOne st.savedcareer (delCond uid (strLower sid)) = st.savedcareer) ∧
    (d ∈ st.savedcareer → dget d "user_id" = some (Val.s u2) → ¬ u2 = uid →
      d ∈ deleteOne st.savedcareer (delCond uid (strLower sid))) ∧
    (d ∈ st.savedcareer → evalQuery d (delCond uid (strLower sid)) = false →
      d ∈ deleteOne st.savedcareer (delCond uid (strLower sid))) ∧
    (¬ findAll st.savedcareer (delCond uid (strLower sid)) = [] →
      (deleteOne st.savedcareer (delCond uid (strLower sid))).length + 1 =
        st.savedcareer.length) := by
  refine ⟨?_, ?_, ?_, ?_, ?_⟩
  · unfold delete_saved parseOid
    simp only [hv, if_true]
  · intro hnone
    apply deleteOne_of_none
    intro x hx
    have := List.filter_eq_nil_iff.mp hnone x hx
    simpa using this
  · intro hmem hu hne
    apply mem_deleteOne _ _ _ hmem
    have hval : ¬ (Val.s u2 = Val.s uid) := by
      intro hc
      injection hc with hc
      exact hne hc
    simp [evalQuery, evalClause, evalLeaf, delCond, hu, matchesEq, hval]
  · intro hmem hfalse
    exact mem_deleteOne _ _ _ hmem hfalse
  · intro hne
    cases hfa : findAll st.savedcareer (delCond uid (strLower sid)) with
    | nil => exact absurd hfa hne
    | cons x xs =>
      have hx : x ∈ findAll st.savedcareer (delCond uid (strLower sid)) := by
        rw [hfa]
        exact List.mem_cons_self _ _
      unfold findAll at hx
      obtain ⟨hxmem, hxp⟩ := List.mem_filter.mp hx
      exact length_deleteOne _ _ x hxmem (by simpa using hxp)

/-- Witness for C5 on the test state: deleting user u1's record by its
identifier keeps the other user's record and removes exactly one. -/
theorem delete_isolation_witness :
    delete_saved (some stateW) "u1" "000000000000000000000003" =
      Except.ok ([("status", Val.s "deleted")],
        { stateW with
          savedcareer :=
            deleteOne stateW.savedcareer (delCond "u1" "000000000000000000000003") }) ∧
    savedRec2 ∈ deleteOne stateW.savedcareer (delCond "u1" "000000000000000000000003") ∧
    (deleteOne stateW.savedcareer (delCond "u1" "000000000000000000000003")).length + 1 =
      stateW.savedcareer.length := by
  have h := delete_isolation stateW "u1" "u2" "000000000000000000000003" savedRec2
    (by decide)
  exact ⟨h.1, h.2.2.1 (by decide) (by decide) (by decide), h.2.2.2.2 (by decide)⟩

/-- C2 counterexample: a supplied empty-string `field` parameter is falsy in
Python, so the code builds no field condition at all; the catalog then
returns records whose field does not equal the supplied value, refuting the
exact-match conjunct for that supplied parameter. -/
theorem catalog_empty_field_param :
    ((catalogFound theSeeded none (some "") none).headD []) ∈
      catalogFound theSeeded none (some "") none ∧
    evalLeaf ((catalogFound theSeeded none (some "") none).headD [])
      (Leaf.eqv "field" (Val.s "")) = false ∧
    (exceptList (list_careers (some theSeeded) none (some "") none)).length = 3 := by
  decide

/-- C2 amended: every record the catalog search returns satisfies all
supplied non-empty conditions conjunctively — exact match on field,
case-insensitive substring match on education — and, for a supplied
non-empty q, at least one of q's disjunctive clauses (case-insensitive
substring on name_en, name_te or field, or membership of q in the tag list);
a supplied empty-string parameter is treated as absent; the result never
holds more than 60 records; with no parameter supplied the filter is the
unrestricted one, which every document satisfies. -/
theorem catalog_search_conjunctive (st : DBState) (qo fo eo : Option String)
    (qv fv ev : String) (d d2 : Doc) (hd : d ∈ catalogFound st qo fo eo) :
    (qo = some qv → ¬ qv = "" →
      (evalLeaf d (Leaf.regexI "name_en" qv) = true ∨
       evalLeaf d (Leaf.regexI "name_te" qv) = true ∨
       evalLeaf d (Leaf.regexI "field" qv) = true ∨
       evalLeaf d (Leaf.inl "tags" [Val.s qv]) = true)) ∧
    (fo = some fv → ¬ fv = "" → evalLeaf d (Leaf.eqv "field" (Val.s fv)) = true) ∧
    (eo = some ev → ¬ ev = "" → evalLeaf d (Leaf.regexI "education" ev) = true) ∧
    (catalogFound st qo fo eo).length ≤ 60 ∧
    listCareersQuery none none none = [] ∧
    evalQuery d2 [] = true := by
  have hmem : d ∈ findAll st.career (listCareersQuery qo fo eo) :=
    List.take_subset _ _ hd
  have hq : evalQuery d (listCareersQuery qo fo eo) = true :=
    (List.mem_filter.mp hmem).2
  unfold listCareersQuery at hq
  rw [evalQuery_append, evalQuery_append, Bool.and_eq_true, Bool.and_eq_true] at hq
  obtain ⟨⟨h1, h2⟩, h3⟩ := hq
  refine ⟨?_, ?_, ?_, List.length_take_le _ _, rfl, rfl⟩
  · rintro rfl hne
    have hcl := evalClause_of_optClause d qv qClause h1 hne
    simp only [qClause, evalClause, List.any_cons, List.any_nil, Bool.or_eq_true,
      Bool.or_false] at hcl
    tauto
  · rintro rfl hne
    have hcl := evalClause_of_optClause d fv _ h2 hne
    simpa [evalClause] using hcl
  · rintro rfl hne
    have hcl := evalClause_of_optClause d ev _ h3 hne
    simpa [evalClause] using hcl

/-- Witness for C2 amended: the seeded store queried with q nurse, field
Healthcare and edu nursing returns the Nurse record, which satisfies every
supplied condition. -/
theorem catalog_search_conjunctive_witness :
    evalLeaf catalogW (Leaf.eqv "field" (Val.s "Healthcare")) = true ∧
    evalLeaf catalogW (Leaf.regexI "education" "nursing") = true ∧
    (evalLeaf catalogW (Leaf.regexI "name_en" "nurse") = true ∨
     evalLeaf catalogW (Leaf.regexI "name_te" "nurse") = true ∨
     evalLeaf catalogW (Leaf.regexI "field" "nurse") = true ∨
     evalLeaf catalogW (Leaf.inl "tags" [Val.s "nurse"]) = true) := by
  have h := catalog_search_conjunctive theSeeded (some "nurse") (some "Healthcare")
    (some "nursing") "nurse" "Healthcare" "nursing" catalogW [] (by decide)
  exact ⟨h.2.1 rfl (by decide), h.2.2.1 rfl (by decide), h.1 rfl (by decide)⟩

theorem careerCard_id (d1 c : Doc) (h : careerCardOfDoc d1 = some c) :
    ∃ x, dget d1 "id" = some (Val.s x) ∧ dget c "id" = some (Val.s x) :=
  projDoc_head_str d1 c "id" _ h

theorem careerCard_no_oid (d1 c : Doc) (h : careerCardOfDoc d1 = some c) :
    dget c "_id" = none :=
  projDoc_get_none d1 c "_id" careerCardFields (by decide) h

theorem counselor_no_oid (d1 c : Doc) (h : counselorOfDoc d1 = some c) :
    dget c "_id" = none :=
  projDoc_get_none d1 c "_id" counselorFields (by decide) h

/-- C9 counterexample: the counselor list endpoint drops the internal
identifier without adding any public one, so the records it returns carry no
id field at all. -/
theorem counselors_without_id :
    (counselors (some emptyDB)).1 =
      Except.ok [[("name", Val.s "Anitha R."), ("phone", Val.s "90000 11111"),
                  ("district", Val.s "Anantapur")],
                 [("name", Val.s "Srinivas K."), ("phone", Val.s "90000 22222"),
                  ("district", Val.s "Kurnool")]] ∧
    dget [("name", Val.s "Anitha R."), ("phone", Val.s "90000 11111"),
          ("district", Val.s "Anantapur")] "id" = none :=
  ⟨rfl, rfl⟩

/-- C9 amended: on a well-formed store, every record returned by the career
list, the career detail and the saved list carries a non-empty string id and
no internal identifier field; counselor-list records carry no internal
identifier field either, but no id at all. -/
theorem id_round_trip (st : DBState) (qo fo eo : Option String) (cid uid : String)
    (c dd sd t : Doc)
    (hwfC : collWF st.career = true) (hwfS : collWF st.savedcareer = true) :
    (c ∈ exceptList (list_careers (some st) qo fo eo) → goodRecB c = true) ∧
    (career_detail (some st) cid = Except.ok dd → goodRecB dd = true) ∧
    (sd ∈ exceptList (list_saved (some st) uid) → goodRecB sd = true) ∧
    (t ∈ exceptList (counselors (some st)).1 → dget t "_id" = none) := by
  refine ⟨?_, ?_, ?_, ?_⟩
  · intro hc
    simp only [list_careers] at hc
    cases hp : projAll (fun d => (to_str_id d).bind careerCardOfDoc)
        (catalogFound st qo fo eo) with
    | none => simp only [hp, exceptList] at hc; cases hc
    | some cards =>
      simp only [hp, exceptList] at hc
      obtain ⟨d, hdmem, hfd⟩ := projAll_mem _ _ _ _ hp hc
      rw [Option.bind_eq_some] at hfd
      obtain ⟨d1, hts, hcard⟩ := hfd
      have hdwf : docWF d = true :=
        collWF_mem _ _ hwfC (List.mem_filter.mp (List.take_subset _ _ hdmem)).1
      obtain ⟨x, hid, hxne, hnoid⟩ := to_str_id_shape d d1 hdwf hts
      obtain ⟨x2, hdid, hcid⟩ := careerCard_id d1 c hcard
      rw [hid] at hdid
      injection hdid with hdid
      injection hdid with hdid
      subst hdid
      exact goodRecB_of_shape c x hcid hxne (careerCard_no_oid d1 c hcard)
  · intro hdd
    simp only [career_detail] at hdd
    split at hdd
    · cases hdd
    next oid hp =>
      split at hdd
      · cases hdd
      next doc hf =>
        split at hdd
        · cases hdd
        next d1 ht2 =>
          injection hdd with hdd
          subst hdd
          have hdocmem : doc ∈ st.career := by
            unfold findOne at hf
            exact (List.mem_filter.mp (mem_of_head_eq _ _ hf)).1
          obtain ⟨x, hid2, hxne, hnoid⟩ :=
            to_str_id_shape doc d1 (collWF_mem _ _ hwfC hdocmem) ht2
          exact goodRecB_of_shape d1 x hid2 hxne hnoid
  · intro hsd
    simp only [list_saved] at hsd
    cases hp : projAll to_str_id
        (findAll st.savedcareer [Clause.leaf (Leaf.eqv "user_id" (Val.s uid))]) with
    | none => simp only [hp, exceptList] at hsd; cases hsd
    | some docs =>
      simp only [hp, exceptList] at hsd
      obtain ⟨d, hdmem, hfd⟩ := projAll_mem _ _ _ _ hp hsd
      have hdwf := collWF_mem _ _ hwfS (List.mem_filter.mp hdmem).1
      obtain ⟨x, hid2, hxne, hnoid⟩ := to_str_id_shape d sd hdwf hfd
      exact goodRecB_of_shape sd x hid2 hxne hnoid
  · intro htm
    simp only [counselors] at htm
    cases hm : projAll counselorOfDoc
        ((counselorDocs st).1.map (fun d => dpopD d "_id")) with
    | none => simp only [hm, exceptList] at htm; cases htm
    | some out =>
      simp only [hm, exceptList] at htm
      obtain ⟨d0, hd0, hf0⟩ := projAll_mem _ _ _ _ hm htm
      exact counselor_no_oid d0 t hf0

/-- Witness for C9 amended on the test state: the first catalog card, the
detail of the first seeded career, the first saved record of user u1 and the
first counselor record. -/
theorem id_round_trip_witness :
    goodRecB cardW = true ∧ goodRecB detailW = true ∧ goodRecB savedW2 = true ∧
    dget counselorW "_id" = none := by
  have h := id_round_trip stateW none none none "000000000000000000000000" "u1"
    cardW detailW savedW2 counselorW (by decide) (by decide)
  exact ⟨h.1 (by decide), h.2.1 rfl, h.2.2.1 (by decide), h.2.2.2 (by decide)⟩
